import Mathlib

/-!
Puri-Vlogs front end (`script.js`)

A shallow embedding of the browser-side script: the application state, the
DOM regions the script writes to, and the handlers `fetchVlogs`, `renderVlogs`,
`createVlogCard`, `filterVlogs`, `loadMoreVlogs`, `showComments`,
`submitComment`, `uploadVlog`, `openModal`, `closeModal`, `openCommentModal`
and `showToast`.

Handlers run in the monad `Js`, which threads a `World` (state, DOM, call log)
and carries JavaScript exceptions, so that `try`/`catch` blocks of the script
are written as `try`/`catch` here.  Each `await fetch(...)` takes its outcome
as an argument (`FetchOutcome`).  `Date.prototype.toLocaleDateString` depends
on the browser locale and is a parameter.  `state.displayCount` is a JavaScript
number, so `+= 4` is binary64 addition (`jsAdd`).
-/

namespace PuriVlogs

/-! ## Data model -/

/-- Backend base URL (`API_BASE_URL`). -/
def API_BASE_URL : String := "https://backend-code-savv.onrender.com"

/-- A comment as delivered by the backend. -/
structure Comment where
  name : String
  text : String
  date : String
deriving DecidableEq, Repr

/-- A post as delivered by the backend. -/
structure Vlog where
  _id : String
  title : String
  mediaType : String
  mediaPath : String
  uploadDate : String
  comments : List Comment
deriving DecidableEq, Repr

/-- The global `state` object.  `displayCount` starts at 4 and is only ever set
to 4 or incremented by 4, so it is a non-negative integer; being a JavaScript
number it is a binary64 value, and `+= 4` rounds (see `jsAdd`). -/
structure State where
  vlogs : List Vlog
  filteredVlogs : List Vlog
  currentFilter : String
  displayCount : Nat
  currentVlogId : Option String
deriving DecidableEq, Repr

/-- The keys of `elements.modals`. -/
inductive ModalType where
  | upload
  | comment
deriving DecidableEq, Repr

/-- The parts of the document the script writes to. -/
structure Dom where
  /-- Holds `elements.vlogGrid.innerHTML`. -/
  vlogGridHTML : String
  /-- Holds `elements.loadMoreBtn.style.display`. -/
  loadMoreDisplay : String
  /-- Holds `innerHTML` of `.modal-content` inside the comment modal. -/
  commentModalContent : String
  /-- Holds `elements.modals.upload.style.display`. -/
  uploadModalDisplay : String
  /-- Holds `elements.modals.comment.style.display`. -/
  commentModalDisplay : String
  /-- Holds `document.body.style.overflow`. -/
  bodyOverflow : String
deriving DecidableEq, Repr

/-- Calls with an effect outside `state` and the `Dom` record, and the DOM
writes whose order matters, in the order they happen. -/
inductive Effect where
  | preventDefault
  | fetch (method url : String)
  | consoleError (label message : String)
  | showToast (message type : String)
  | formReset
  | setCommentModalContent (html : String)
  | openModal (modalType : ModalType)
  | closeModal (modalType : ModalType)
deriving DecidableEq, Repr

/-- Everything a handler can read or change. -/
structure World where
  state : State
  dom : Dom
  log : List Effect
deriving DecidableEq, Repr

/-- The `state` literal at the top of the script. -/
def initialState : State :=
  { vlogs := [], filteredVlogs := [], currentFilter := "all", displayCount := 4,
    currentVlogId := none }

/-- What `await fetch(...)` followed by `response.ok` / `response.json()` can
give: the promise rejects (transport failure), or it resolves to a response
with its `ok` flag, whose `json()` either rejects with a message or resolves
to a value. -/
inductive FetchOutcome (α : Type) where
  | rejected (message : String)
  | resolved (ok : Bool) (json : Except String α)
deriving Repr

/-- A resolved response object. -/
structure Response (α : Type) where
  ok : Bool
  json : Except String α

/-- Handlers: world-passing with JavaScript exceptions (the message of the
thrown `Error`).  World changes made before a throw persist. -/
abbrev Js := ExceptT String (StateM World)

/-- Run a handler from a world: how it completed and the world it left. -/
def exec {α : Type} (m : Js α) (w : World) : Except String α × World :=
  (m.run).run w

/-- Append a call to the log. -/
def emit (e : Effect) : Js Unit :=
  modify fun w => { w with log := w.log ++ [e] }

/-- Model of `await fetch(url, {method})`: records the request and resolves or rejects. -/
def fetch {α : Type} (method url : String) (net : FetchOutcome α) : Js (Response α) := do
  emit (Effect.fetch method url)
  match net with
  | .rejected message => throw message
  | .resolved ok json => pure { ok := ok, json := json }

/-- Model of `await response.json()`. -/
def Response.awaitJson {α : Type} (r : Response α) : Js α :=
  match r.json with
  | .error message => throw message
  | .ok a => pure a

/-! ## Toasts and modals -/

/-- Model of `showToast(message, type)`: the element creation is recorded; the timers are not modelled. -/
def showToast (message : String) (type : String) : Js Unit :=
  emit (Effect.showToast message type)

/-- Model of `console.error(label, error)`. -/
def consoleError (label message : String) : Js Unit :=
  emit (Effect.consoleError label message)

def openModal (modalType : ModalType) : Js Unit := do
  emit (Effect.openModal modalType)
  modify fun w =>
    match modalType with
    | .upload => { w with dom := { w.dom with uploadModalDisplay := "block", bodyOverflow := "hidden" } }
    | .comment => { w with dom := { w.dom with commentModalDisplay := "block", bodyOverflow := "hidden" } }

def closeModal (modalType : ModalType) : Js Unit := do
  emit (Effect.closeModal modalType)
  modify fun w =>
    match modalType with
    | .upload => { w with dom := { w.dom with uploadModalDisplay := "none", bodyOverflow := "auto" } }
    | .comment => { w with dom := { w.dom with commentModalDisplay := "none", bodyOverflow := "auto" } }

/-- Assignment to `elements.modals.comment.querySelector('.modal-content').innerHTML`. -/
def setCommentModalContent (html : String) : Js Unit := do
  emit (Effect.setCommentModalContent html)
  modify fun w => { w with dom := { w.dom with commentModalContent := html } }

/-! ## Rendering -/

/-- Model of `createVlogCard(vlog)`: the card markup, character for character. -/
def createVlogCard (toLocaleDateString : String → String) (vlog : Vlog) : String :=
  let media :=
    if vlog.mediaType = "video" then
      "<video controls>\n                        <source src=\"" ++
      API_BASE_URL ++
      "/" ++
      vlog.mediaPath ++
      "\" type=\"video/mp4\">\n                        Your browser does not support the video tag.\n                    </video>"
    else
      "<img src=\"" ++
      API_BASE_URL ++
      "/" ++
      vlog.mediaPath ++
      "\" alt=\"" ++
      vlog.title ++
      "\">"
  "\n        <div class=\"vlog\" data-id=\"" ++
    vlog._id ++
    "\">\n            <div class=\"vlog-media\">\n                " ++
    media ++
    "\n            </div>\n            <div class=\"vlog-content\">\n                <h3>" ++
    vlog.title ++
    "</h3>\n                <p class=\"upload-date\">" ++
    toLocaleDateString vlog.uploadDate ++
    "</p>\n                <div class=\"vlog-actions\">\n                    <button class=\"view-comments\" onclick=\"showComments(\x27" ++
    vlog._id ++
    "\x27)\">\n                        <i class=\"fas fa-comment\"></i> " ++
    toString vlog.comments.length ++
    " Comments\n                    </button>\n                    <button class=\"add-comment\" onclick=\"openCommentModal(\x27" ++
    vlog._id ++
    "\x27)\">\n                        <i class=\"fas fa-plus\"></i> Add Comment\n                    </button>\n                </div>\n            </div>\n        </div>\n    "

/-- The placeholder shown by `renderVlogs` when the joined markup is empty. -/
def noVlogsHtml : String := "<p class=\"no-vlogs\">No vlogs found matching your criteria.</p>"

/-- The array `state.filteredVlogs.slice(0, state.displayCount).map(createVlogCard)`
of `renderVlogs`, before `.join('')`. -/
def vlogCards (toLocaleDateString : String → String) (st : State) : List String :=
  (st.filteredVlogs.take st.displayCount).map (fun vlog => createVlogCard toLocaleDateString vlog)

/-- Model of `renderVlogs()`. -/
def renderVlogs (toLocaleDateString : String → String) : Js Unit := do
  modify fun w => { w with dom := { w.dom with vlogGridHTML := "" } }
  let st := (← get).state
  let vlogsToDisplay := String.join (vlogCards toLocaleDateString st)
  modify fun w => { w with dom := { w.dom with
    vlogGridHTML := if vlogsToDisplay = "" then noVlogsHtml else vlogsToDisplay } }
  modify fun w => { w with dom := { w.dom with
    loadMoreDisplay := if st.displayCount ≥ st.filteredVlogs.length then "none" else "block" } }

/-! ## JavaScript numbers

JavaScript numbers are IEEE-754 binary64 values: 53 bits of mantissa.  A
non-negative integer below `2 ^ 53` is held exactly; from there on only
multiples of a power of two are, and the result of an addition is rounded to
the nearest of them, ties going to the even mantissa. -/

/-- For `n` at least `2 ^ 53`, the number of low bits that binary64 drops:
the least `e` with `n / 2 ^ e < 2 ^ 53`; zero below `2 ^ 53`.  `fuel` bounds
the search and `n` itself is enough. -/
def binadeShift : Nat → Nat → Nat
  | 0, _ => 0
  | fuel + 1, n => if n < 2 ^ 53 then 0 else binadeShift fuel (n / 2) + 1

/-- The binary64 value nearest to the integer `n`, ties to even. -/
def roundToDouble (n : Nat) : Nat :=
  if 2 * (n % 2 ^ binadeShift n n) < 2 ^ binadeShift n n ∨
      (2 * (n % 2 ^ binadeShift n n) = 2 ^ binadeShift n n ∧ n / 2 ^ binadeShift n n % 2 = 0) then
    n / 2 ^ binadeShift n n * 2 ^ binadeShift n n
  else (n / 2 ^ binadeShift n n + 1) * 2 ^ binadeShift n n

/-- The integer `n` is a finite binary64 value: its exponent is in range
(`n < 2 ^ 1024`) and rounding leaves it alone. -/
def isDouble (n : Nat) : Bool :=
  decide (binadeShift n n ≤ 971) && decide (roundToDouble n = n)

/-- JavaScript `a + b` on non-negative integer-valued numbers: the exact sum,
rounded.  `Infinity` is outside this type; a sum rounds to it only from
`2 ^ 1024 - 2 ^ 970` on, which adding 4 to a finite value does not reach. -/
def jsAdd (a b : Nat) : Nat := roundToDouble (a + b)

/-! ## State transitions -/

/-- Model of `fetchVlogs()`, given the outcome of `GET /vlogs`. -/
def fetchVlogs (net : FetchOutcome (List Vlog)) : Js Unit := do
  try
    let response ← fetch "GET" (API_BASE_URL ++ "/vlogs") net
    if !response.ok then throw "Network response was not ok"
    let vlogs ← response.awaitJson
    modify fun w => { w with state := { w.state with vlogs := vlogs } }
    modify fun w => { w with state := { w.state with filteredVlogs := w.state.vlogs } }
  catch error =>
    consoleError "Error fetching vlogs:" error
    showToast "Failed to load vlogs. Please try again later." "error"

/-- Model of `filterVlogs(type)`. -/
def filterVlogs (toLocaleDateString : String → String) (type : String) : Js Unit := do
  modify fun w => { w with state := { w.state with currentFilter := type } }
  modify fun w => { w with state := { w.state with displayCount := 4 } }
  modify fun w => { w with state := { w.state with
    filteredVlogs :=
      if type = "all" then w.state.vlogs
      else w.state.vlogs.filter (fun vlog => vlog.mediaType = type) } }
  renderVlogs toLocaleDateString

/-- Model of `loadMoreVlogs()`. -/
def loadMoreVlogs (toLocaleDateString : String → String) : Js Unit := do
  modify fun w => { w with state := { w.state with displayCount := jsAdd w.state.displayCount 4 } }
  renderVlogs toLocaleDateString

/-- Model of `init()`, given the outcome of the first `GET /vlogs`;
`setupEventListeners()` only registers the handlers below. -/
def init (toLocaleDateString : String → String) (net : FetchOutcome (List Vlog)) : Js Unit := do
  fetchVlogs net
  renderVlogs toLocaleDateString

/-! ## Comments -/

/-- The arrow function mapped over `vlog.comments` in `showComments`. -/
def commentEntry (toLocaleDateString : String → String) (comment : Comment) : String :=
  "\n                <div class=\"comment\">\n                    <strong>" ++
    comment.name ++
    "</strong>\n                    <p>" ++
    comment.text ++
    "</p>\n                    <small>" ++
    toLocaleDateString comment.date ++
    "</small>\n                </div>\n            "

/-- The empty-state text of `showComments`. -/
def noCommentsHtml : String := "<p>No comments yet. Be the first to comment!</p>"

/-- The modal markup written by `showComments` around `commentsHtml`. -/
def commentsModalHtml (title commentsHtml : String) : String :=
  "\n            <h2>Comments for \"" ++
    title ++
    "\"</h2>\n            <div class=\"comments-container\">" ++
    commentsHtml ++
    "</div>\n            <button onclick=\"closeModal(\x27comment\x27)\">Close</button>\n        "

/-- Model of `showComments(vlogId)`, given the outcome of `GET /vlogs/{vlogId}`. -/
def showComments (toLocaleDateString : String → String) (vlogId : String)
    (net : FetchOutcome Vlog) : Js Unit := do
  try
    let response ← fetch "GET" (API_BASE_URL ++ "/vlogs/" ++ vlogId) net
    if !response.ok then throw "Failed to fetch comments"
    let vlog ← response.awaitJson
    let commentsHtml :=
      if vlog.comments.length > 0 then
        String.join (vlog.comments.map (fun comment => commentEntry toLocaleDateString comment))
      else noCommentsHtml
    setCommentModalContent (commentsModalHtml vlog.title commentsHtml)
    openModal .comment
  catch error =>
    consoleError "Error showing comments:" error
    showToast "Failed to load comments" "error"

/-- Model of `submitComment(event, vlogId)`, given the outcome of the `POST` and,
for the refresh on success, of the following `GET /vlogs`.  The request body
(`name`, `comment` of the form) has no influence on the control flow and is
not recorded. -/
def submitComment (toLocaleDateString : String → String) (vlogId : String)
    (post : FetchOutcome Unit) (refresh : FetchOutcome (List Vlog)) : Js Unit := do
  emit Effect.preventDefault
  try
    let response ← fetch "POST" (API_BASE_URL ++ "/vlogs/" ++ vlogId ++ "/comments") post
    if !response.ok then throw "Failed to submit comment"
    showToast "Comment added successfully!" "success"
    emit Effect.formReset
    closeModal .comment
    fetchVlogs refresh
    renderVlogs toLocaleDateString
  catch error =>
    consoleError "Error submitting comment:" error
    showToast "Failed to add comment" "error"

/-- Model of `uploadVlog(event)`.  The body of a non-success response is read
with `response.json()`; its value here is the `error` member of the parsed
object (`none` when absent), and a body that does not parse, or is not an
object, rejects or throws with a message. -/
def uploadVlog (toLocaleDateString : String → String)
    (post : FetchOutcome (Option String)) (refresh : FetchOutcome (List Vlog)) : Js Unit := do
  emit Effect.preventDefault
  try
    let response ← fetch "POST" (API_BASE_URL ++ "/vlogs") post
    if !response.ok then
      let error ← response.awaitJson
      throw (match error with
        | some message => if message = "" then "Upload failed" else message
        | none => "Upload failed")
    showToast "Vlog uploaded successfully!" "success"
    emit Effect.formReset
    closeModal .upload
    fetchVlogs refresh
    renderVlogs toLocaleDateString
  catch error =>
    consoleError "Error uploading vlog:" error
    showToast (if error = "" then "Failed to upload vlog" else error) "error"

/-- Model of `openCommentModal(vlogId)`. -/
def openCommentModal (vlogId : String) : Js Unit := do
  modify fun w => { w with state := { w.state with currentVlogId := some vlogId } }
  setCommentModalContent (
    "\n        <h2>Add Comment</h2>\n        <form onsubmit=\"submitComment(event, \x27" ++
    vlogId ++
    "\x27)\">\n            <div class=\"form-group\">\n                <label for=\"comment-name\">Your Name</label>\n                <input type=\"text\" id=\"comment-name\" name=\"name\" required>\n            </div>\n            <div class=\"form-group\">\n                <label for=\"comment-text\">Your Comment</label>\n                <textarea id=\"comment-text\" name=\"comment\" required></textarea>\n            </div>\n            <button type=\"submit\">Submit Comment</button>\n        </form>\n        <button onclick=\"closeModal(\x27comment\x27)\">Cancel</button>\n    ")
  openModal .comment

/-! ## Vocabulary of the properties -/

/-- A request failed: the transport failed or the response is not a success. -/
def FetchOutcome.failed {α : Type} : FetchOutcome α → Bool
  | .rejected _ => true
  | .resolved ok _ => !ok

/-- A request succeeded with a readable body. -/
def FetchOutcome.success {α : Type} (a : α) : FetchOutcome α := .resolved true (.ok a)

/-- A post passes the filter value `type`. -/
def matchesFilter (type : String) (vlog : Vlog) : Bool :=
  decide (type = "all") || decide (vlog.mediaType = type)

/-- The state the script starts in, with any initial document. -/
def initialWorld (dom : Dom) : World := { state := initialState, dom := dom, log := [] }

/-- States reachable from the initial one by `filterVlogs(type)`,
`loadMoreVlogs()` and successful `fetchVlogs()` steps. -/
inductive Reachable (toLocaleDateString : String → String) : World → Prop where
  | initial (dom : Dom) : Reachable toLocaleDateString (initialWorld dom)
  | filter {w : World} (type : String) :
      Reachable toLocaleDateString w →
      Reachable toLocaleDateString (exec (filterVlogs toLocaleDateString type) w).2
  | loadMore {w : World} :
      Reachable toLocaleDateString w →
      Reachable toLocaleDateString (exec (loadMoreVlogs toLocaleDateString) w).2
  | fetched {w : World} (vlogs : List Vlog) :
      Reachable toLocaleDateString w →
      Reachable toLocaleDateString (exec (fetchVlogs (FetchOutcome.success vlogs)) w).2

/-- Sample post list: five videos followed by three images. -/
def sampleVlogs : List Vlog :=
  [ { _id := "v1", title := "a", mediaType := "video", mediaPath := "u/1.mp4", uploadDate := "d1", comments := [] },
    { _id := "v2", title := "b", mediaType := "video", mediaPath := "u/2.mp4", uploadDate := "d2", comments := [] },
    { _id := "v3", title := "c", mediaType := "video", mediaPath := "u/3.mp4", uploadDate := "d3", comments := [] },
    { _id := "v4", title := "d", mediaType := "video", mediaPath := "u/4.mp4", uploadDate := "d4", comments := [] },
    { _id := "v5", title := "e", mediaType := "video", mediaPath := "u/5.mp4", uploadDate := "d5", comments := [] },
    { _id := "i1", title := "f", mediaType := "image", mediaPath := "u/1.png", uploadDate := "d6", comments := [] },
    { _id := "i2", title := "g", mediaType := "image", mediaPath := "u/2.png", uploadDate := "d7", comments := [] },
    { _id := "i3", title := "h", mediaType := "image", mediaPath := "u/3.png", uploadDate := "d8", comments := [] } ]

/-- An empty document. -/
def blankDom : Dom :=
  { vlogGridHTML := "", loadMoreDisplay := "", commentModalContent := "",
    uploadModalDisplay := "", commentModalDisplay := "", bodyOverflow := "" }

/-- A world holding the sample list unfiltered, with page size `n`. -/
def sampleWorld (n : Nat) : World :=
  { state := { vlogs := sampleVlogs, filteredVlogs := sampleVlogs, currentFilter := "all",
               displayCount := n, currentVlogId := none },
    dom := blankDom, log := [] }

/-! ## Auxiliary facts -/

theorem length_join (l : List String) : (String.join l).length = (l.map String.length).sum := by
  have h : ∀ (acc : String), (List.foldl (fun r s => r ++ s) acc l).length
      = acc.length + (l.map String.length).sum := by
    induction l with
    | nil => intro acc; simp
    | cons s t ih => intro acc; simp [ih, String.length_append, Nat.add_assoc]
  simpa [String.join] using h ""

theorem string_eq_empty_iff (s : String) : s = "" ↔ s.length = 0 := by
  constructor
  · rintro rfl; rfl
  · intro h
    apply String.ext
    exact List.length_eq_zero.mp h

theorem join_eq_empty_iff (l : List String) : String.join l = "" ↔ ∀ s ∈ l, s = "" := by
  rw [string_eq_empty_iff, length_join]
  simp [List.sum_eq_zero_iff, string_eq_empty_iff]

theorem createVlogCard_ne_empty (L : String → String) (v : Vlog) : createVlogCard L v ≠ "" := by
  intro h
  rw [string_eq_empty_iff] at h
  simp only [createVlogCard, String.length_append] at h
  have : ("\n        <div class=\"vlog\" data-id=\"" : String).length = 36 := by decide
  omega

theorem binadeShift_spec (fuel : Nat) : ∀ n, n ≤ fuel →
    n / 2 ^ binadeShift fuel n < 2 ^ 53 ∧
    (0 < binadeShift fuel n → 2 ^ 52 ≤ n / 2 ^ binadeShift fuel n) := by
  induction fuel with
  | zero =>
    intro n hn
    have : n = 0 := by omega
    subst this
    simp [binadeShift]
  | succ fuel ih =>
    intro n hn
    unfold binadeShift
    by_cases h : n < 2 ^ 53
    · rw [if_pos h]
      exact ⟨by simpa using h, fun hh => absurd hh (lt_irrefl 0)⟩
    · rw [if_neg h]
      have h2 : n / 2 ≤ fuel := by omega
      obtain ⟨ih1, ih2⟩ := ih (n / 2) h2
      have hd : n / 2 ^ (binadeShift fuel (n / 2) + 1) = n / 2 / 2 ^ binadeShift fuel (n / 2) := by
        rw [pow_succ, Nat.mul_comm, Nat.div_div_eq_div_mul]
      rw [hd]
      refine ⟨ih1, fun _ => ?_⟩
      by_cases hs : 0 < binadeShift fuel (n / 2)
      · exact ih2 hs
      · have : binadeShift fuel (n / 2) = 0 := by omega
        rw [this]
        simp
        omega

theorem roundToDouble_dvd (n : Nat) : 2 ^ binadeShift n n ∣ roundToDouble n := by
  unfold roundToDouble
  split
  · exact Dvd.intro_left _ rfl
  · exact Dvd.intro_left _ rfl

theorem floor_le_roundToDouble (n : Nat) :
    n / 2 ^ binadeShift n n * 2 ^ binadeShift n n ≤ roundToDouble n := by
  unfold roundToDouble
  split
  · exact le_refl _
  · exact Nat.mul_le_mul_right _ (Nat.le_succ _)

theorem roundToDouble_of_lt (n : Nat) (h : n < 2 ^ 53) : roundToDouble n = n := by
  have hs : binadeShift n n = 0 := by
    cases n with
    | zero => rfl
    | succ k => unfold binadeShift; rw [if_pos h]
  unfold roundToDouble
  simp [hs, Nat.mod_one]

theorem le_jsAdd_of_isDouble (n k : Nat) (h : isDouble n = true) : n ≤ jsAdd n k := by
  have hfix : roundToDouble n = n := by
    simp [isDouble] at h
    exact h.2
  have hdvd : 2 ^ binadeShift n n ∣ n := by
    have := roundToDouble_dvd n
    rwa [hfix] at this
  unfold jsAdd
  refine le_trans ?_ (floor_le_roundToDouble (n + k))
  by_cases hc : binadeShift (n + k) (n + k) ≤ binadeShift n n
  · have hd : 2 ^ binadeShift (n + k) (n + k) ∣ n :=
      Dvd.dvd.trans (pow_dvd_pow 2 hc) hdvd
    obtain ⟨c, hc'⟩ := hd
    have hpos : 0 < 2 ^ binadeShift (n + k) (n + k) := pow_pos (by norm_num) _
    have : c ≤ (n + k) / 2 ^ binadeShift (n + k) (n + k) := by
      rw [Nat.le_div_iff_mul_le hpos]
      rw [Nat.mul_comm, ← hc']
      omega
    calc n = c * 2 ^ binadeShift (n + k) (n + k) := hc'.trans (Nat.mul_comm _ _)
      _ ≤ _ := Nat.mul_le_mul_right _ this
  · have hlt : binadeShift n n + 1 ≤ binadeShift (n + k) (n + k) := by omega
    have h1 := (binadeShift_spec n n (le_refl n)).1
    have h2 := (binadeShift_spec (n + k) (n + k) (le_refl _)).2 (by omega)
    have hposn : 0 < 2 ^ binadeShift n n := pow_pos (by norm_num) _
    rw [Nat.div_lt_iff_lt_mul hposn] at h1
    have h3 : 2 ^ 53 * 2 ^ binadeShift n n ≤ 2 ^ 52 * 2 ^ binadeShift (n + k) (n + k) := by
      calc 2 ^ 53 * 2 ^ binadeShift n n = 2 ^ 52 * 2 ^ (binadeShift n n + 1) := by
            rw [pow_succ 2 (binadeShift n n)]; ring
        _ ≤ _ := Nat.mul_le_mul_left _ (Nat.pow_le_pow_right (by norm_num) hlt)
    have h4 := Nat.mul_le_mul_right (2 ^ binadeShift (n + k) (n + k)) h2
    omega

theorem filteredVlogs_after_filter (L : String → String) (type : String) (w : World) :
    (exec (filterVlogs L type) w).2.state.filteredVlogs =
      if type = "all" then w.state.vlogs
      else w.state.vlogs.filter (fun vlog => vlog.mediaType = type) := rfl

theorem filter_matches_eq (type : String) (vlogs : List Vlog) :
    vlogs.filter (matchesFilter type) =
      if type = "all" then vlogs else vlogs.filter (fun vlog => vlog.mediaType = type) := by
  by_cases h : type = "all"
  · have : matchesFilter type = fun _ => true := by funext v; simp [matchesFilter, h]
    rw [this, if_pos h]; simp
  · have : matchesFilter type = fun vlog => decide (vlog.mediaType = type) := by
      funext v; simp [matchesFilter, h]
    rw [this, if_neg h]

theorem gridHTML_after_render (L : String → String) (w : World) :
    (exec (renderVlogs L) w).2.dom.vlogGridHTML =
      if String.join (vlogCards L w.state) = "" then noVlogsHtml
      else String.join (vlogCards L w.state) := rfl

theorem join_cards_eq_empty_iff (L : String → String) (vlogs : List Vlog) :
    String.join (vlogs.map (fun vlog => createVlogCard L vlog)) = "" ↔ vlogs = [] := by
  rw [join_eq_empty_iff]
  constructor
  · intro h
    cases vlogs with
    | nil => rfl
    | cons v t => exact absurd (h _ (by simp)) (createVlogCard_ne_empty L v)
  · rintro rfl; simp

/-! ## Filtering -/

/-- C1: after `filterVlogs(type)` every post of `state.filteredVlogs` passes the
filter (`type = 'all'` or its `mediaType` is `type`), `state.filteredVlogs` is a
sublist of `state.vlogs` (same order, nothing added or duplicated), it is the
whole list when `type = 'all'`, and otherwise it holds every post of
`state.vlogs` whose `mediaType` is `type`, as often as `state.vlogs` does. -/
theorem filterVlogs_filters (L : String → String) (type : String) (w : World) :
    (∀ v ∈ (exec (filterVlogs L type) w).2.state.filteredVlogs,
        type = "all" ∨ v.mediaType = type) ∧
    List.Sublist (exec (filterVlogs L type) w).2.state.filteredVlogs
      (exec (filterVlogs L type) w).2.state.vlogs ∧
    (exec (filterVlogs L type) w).2.state.vlogs = w.state.vlogs ∧
    (type = "all" → (exec (filterVlogs L type) w).2.state.filteredVlogs = w.state.vlogs) ∧
    (type ≠ "all" → ∀ v ∈ w.state.vlogs, v.mediaType = type →
        v ∈ (exec (filterVlogs L type) w).2.state.filteredVlogs ∧
        (exec (filterVlogs L type) w).2.state.filteredVlogs.count v = w.state.vlogs.count v) := by
  have hv : (exec (filterVlogs L type) w).2.state.vlogs = w.state.vlogs := rfl
  rw [hv, filteredVlogs_after_filter]
  by_cases h : type = "all"
  · simp [h]
  · simp only [h, if_false, ne_eq, not_false_eq_true, false_or, true_implies, false_implies,
      and_true, true_and]
    refine ⟨?_, List.filter_sublist _, ?_⟩
    · intro v hv
      simpa using (List.mem_filter.mp hv).2
    · intro v hmem hty
      refine ⟨List.mem_filter.mpr ⟨hmem, by simpa using hty⟩, ?_⟩
      exact List.count_filter (by simpa using hty)

/-- C1, at the sample list: `filterVlogs('image')` keeps exactly the three images. -/
theorem filterVlogs_filters_witness :
    (exec (filterVlogs id "image") (sampleWorld 8)).2.state.filteredVlogs = sampleVlogs.drop 5 ∧
    List.Sublist (exec (filterVlogs id "image") (sampleWorld 8)).2.state.filteredVlogs
      (exec (filterVlogs id "image") (sampleWorld 8)).2.state.vlogs :=
  ⟨by decide, (filterVlogs_filters id "image" (sampleWorld 8)).2.1⟩

/-- C2, evaluated at the failing input: from the initial state, `filterVlogs('image')`
followed by a successful `fetchVlogs()` that delivers the sample list reaches a
state whose `currentFilter` is still `'image'` while `filteredVlogs` is the
whole fetched list, videos included, and not the list filtered by `'image'`. -/
theorem fetchVlogs_skips_currentFilter :
    Reachable id
      (exec (fetchVlogs (FetchOutcome.success sampleVlogs))
        (exec (filterVlogs id "image") (initialWorld blankDom)).2).2 ∧
    (exec (fetchVlogs (FetchOutcome.success sampleVlogs))
        (exec (filterVlogs id "image") (initialWorld blankDom)).2).2.state.currentFilter
      = "image" ∧
    (exec (fetchVlogs (FetchOutcome.success sampleVlogs))
        (exec (filterVlogs id "image") (initialWorld blankDom)).2).2.state.filteredVlogs
      = sampleVlogs ∧
    (exec (fetchVlogs (FetchOutcome.success sampleVlogs))
        (exec (filterVlogs id "image") (initialWorld blankDom)).2).2.state.filteredVlogs
      ≠ (exec (fetchVlogs (FetchOutcome.success sampleVlogs))
        (exec (filterVlogs id "image") (initialWorld blankDom)).2).2.state.vlogs.filter
          (fun vlog => vlog.mediaType = "image") :=
  ⟨Reachable.fetched sampleVlogs (Reachable.filter "image" (Reachable.initial blankDom)),
    rfl, rfl, by decide⟩

/-! ## Rendering -/

/-- C3: `renderVlogs()` completes and maps `createVlogCard` over the prefix
`filteredVlogs[0..displayCount)`: there are `min displayCount |filteredVlogs|`
cards, card `i` is the card of post `i`, and the grid receives their
concatenation (the placeholder when there is none).  With the sample list
(5 videos, 3 images), filter `'all'` and page size 4 the grid is the cards of
the first four posts in order. -/
theorem renderVlogs_cards (L : String → String) (w : World) :
    (exec (renderVlogs L) w).1 = .ok () ∧
    (vlogCards L w.state).length = min w.state.displayCount w.state.filteredVlogs.length ∧
    (∀ i, i < min w.state.displayCount w.state.filteredVlogs.length →
      (vlogCards L w.state)[i]? = (w.state.filteredVlogs[i]?).map (createVlogCard L)) ∧
    (exec (renderVlogs L) w).2.dom.vlogGridHTML =
      (if min w.state.displayCount w.state.filteredVlogs.length = 0 then noVlogsHtml
       else String.join (vlogCards L w.state)) ∧
    (exec (renderVlogs L) w).2.state = w.state ∧
    (exec (renderVlogs L) (sampleWorld 4)).2.dom.vlogGridHTML =
      String.join [createVlogCard L sampleVlogs[0], createVlogCard L sampleVlogs[1],
        createVlogCard L sampleVlogs[2], createVlogCard L sampleVlogs[3]] := by
  have hlen : (vlogCards L w.state).length
      = min w.state.displayCount w.state.filteredVlogs.length := by
    simp [vlogCards]
  have hgrid : ∀ w : World, (exec (renderVlogs L) w).2.dom.vlogGridHTML =
      (if min w.state.displayCount w.state.filteredVlogs.length = 0 then noVlogsHtml
       else String.join (vlogCards L w.state)) := by
    intro w
    rw [gridHTML_after_render]
    have h : String.join (vlogCards L w.state) = "" ↔
        min w.state.displayCount w.state.filteredVlogs.length = 0 := by
      unfold vlogCards
      rw [join_cards_eq_empty_iff, ← List.length_eq_zero, List.length_take]
    by_cases h0 : min w.state.displayCount w.state.filteredVlogs.length = 0
    · rw [if_pos h0, if_pos (h.mpr h0)]
    · rw [if_neg h0, if_neg (fun hh => h0 (h.mp hh))]
  refine ⟨rfl, hlen, ?_, hgrid w, rfl, ?_⟩
  · intro i hi
    have hi1 : i < w.state.displayCount := lt_of_lt_of_le hi (Nat.min_le_left _ _)
    simp [vlogCards, List.getElem?_take, hi1]
  · rw [hgrid]
    rfl

/-- C3, at the sample list with page size 4: there are four cards and the third
is the card of the third post. -/
theorem renderVlogs_cards_witness :
    (vlogCards id (sampleWorld 4).state).length = 4 ∧
    (vlogCards id (sampleWorld 4).state)[2]?
      = ((sampleWorld 4).state.filteredVlogs[2]?).map (createVlogCard id) :=
  ⟨(renderVlogs_cards id (sampleWorld 4)).2.1,
   (renderVlogs_cards id (sampleWorld 4)).2.2.1 2 (by decide)⟩

/-- C4: after `renderVlogs()` the load-more control has display `'none'` exactly
when `displayCount >= |filteredVlogs|` and `'block'` exactly otherwise; when it
is hidden there is one card for every post of `filteredVlogs`. -/
theorem renderVlogs_loadMore (L : String → String) (w : World) :
    ((exec (renderVlogs L) w).2.dom.loadMoreDisplay = "none" ↔
      w.state.displayCount ≥ w.state.filteredVlogs.length) ∧
    ((exec (renderVlogs L) w).2.dom.loadMoreDisplay = "block" ↔
      w.state.displayCount < w.state.filteredVlogs.length) ∧
    ((exec (renderVlogs L) w).2.dom.loadMoreDisplay = "none" →
      vlogCards L w.state = w.state.filteredVlogs.map (createVlogCard L) ∧
      (exec (renderVlogs L) w).2.dom.vlogGridHTML =
        (if w.state.filteredVlogs = [] then noVlogsHtml
         else String.join (w.state.filteredVlogs.map (createVlogCard L)))) := by
  have hd : (exec (renderVlogs L) w).2.dom.loadMoreDisplay =
      if w.state.displayCount ≥ w.state.filteredVlogs.length then "none" else "block" := rfl
  have hnb : ("none" : String) ≠ "block" := by decide
  have hbn : ("block" : String) ≠ "none" := by decide
  rw [hd]
  by_cases h : w.state.displayCount ≥ w.state.filteredVlogs.length
  · have hc : vlogCards L w.state = w.state.filteredVlogs.map (createVlogCard L) := by
      unfold vlogCards
      rw [List.take_of_length_le h]
    refine ⟨by simp [h], by simp [h, hnb], fun _ => ⟨hc, ?_⟩⟩
    rw [gridHTML_after_render, hc]
    by_cases he : w.state.filteredVlogs = []
    · rw [if_pos he, if_pos ((join_cards_eq_empty_iff L _).mpr he)]
    · rw [if_neg he, if_neg (fun hh => he ((join_cards_eq_empty_iff L _).mp hh))]
  · refine ⟨by simp [h, hbn], by simp [h]; omega, fun hh => ?_⟩
    rw [if_neg h] at hh
    exact absurd hh hbn

/-- C4, at the sample list: page size 8 hides the control, page size 4 shows it. -/
theorem renderVlogs_loadMore_witness :
    (exec (renderVlogs id) (sampleWorld 8)).2.dom.loadMoreDisplay = "none" ∧
    (exec (renderVlogs id) (sampleWorld 4)).2.dom.loadMoreDisplay = "block" :=
  ⟨(renderVlogs_loadMore id (sampleWorld 8)).1.mpr (by decide),
   (renderVlogs_loadMore id (sampleWorld 4)).2.1.mpr (by decide)⟩

/-! ## Paging and filter changes -/

/-- C5 (as the code has it): `loadMoreVlogs()` completes; when
`displayCount + 4 <= 2 ^ 53`, where the addition of JavaScript numbers is exact,
it sets `displayCount` to its previous value plus 4 (no clamp at
`|filteredVlogs|`), so it strictly increases; for every finite number
`displayCount` it does not decrease; `vlogs`, `filteredVlogs`, `currentFilter`
and `currentVlogId` keep their values in every state. -/
theorem loadMoreVlogs_adds_four (L : String → String) (w : World) :
    (exec (loadMoreVlogs L) w).1 = .ok () ∧
    (w.state.displayCount + 4 ≤ 2 ^ 53 →
      (exec (loadMoreVlogs L) w).2.state.displayCount = w.state.displayCount + 4 ∧
      w.state.displayCount < (exec (loadMoreVlogs L) w).2.state.displayCount) ∧
    (isDouble w.state.displayCount = true →
      w.state.displayCount ≤ (exec (loadMoreVlogs L) w).2.state.displayCount) ∧
    (exec (loadMoreVlogs L) w).2.state.vlogs = w.state.vlogs ∧
    (exec (loadMoreVlogs L) w).2.state.filteredVlogs = w.state.filteredVlogs ∧
    (exec (loadMoreVlogs L) w).2.state.currentFilter = w.state.currentFilter ∧
    (exec (loadMoreVlogs L) w).2.state.currentVlogId = w.state.currentVlogId := by
  have h : (exec (loadMoreVlogs L) w).2.state.displayCount = jsAdd w.state.displayCount 4 := rfl
  refine ⟨rfl, ?_, ?_, rfl, rfl, rfl, rfl⟩
  · intro hle
    have hx : jsAdd w.state.displayCount 4 = w.state.displayCount + 4 := by
      unfold jsAdd
      rcases Nat.lt_or_ge (w.state.displayCount + 4) (2 ^ 53) with hlt | hge
      · exact roundToDouble_of_lt _ hlt
      · have he : w.state.displayCount + 4 = 2 ^ 53 := Nat.le_antisymm hle hge
        rw [he]
        decide
    rw [h, hx]
    exact ⟨rfl, by omega⟩
  · intro hd
    rw [h]
    exact le_jsAdd_of_isDouble _ 4 hd

/-- C5, at page sizes 4 and `2 ^ 55`: the first becomes 8, the second does not decrease. -/
theorem loadMoreVlogs_adds_four_witness :
    ((exec (loadMoreVlogs id) (sampleWorld 4)).2.state.displayCount = 4 + 4 ∧
      4 < (exec (loadMoreVlogs id) (sampleWorld 4)).2.state.displayCount) ∧
    2 ^ 55 ≤ (exec (loadMoreVlogs id) (sampleWorld (2 ^ 55))).2.state.displayCount :=
  ⟨(loadMoreVlogs_adds_four id (sampleWorld 4)).2.1 (by decide),
   (loadMoreVlogs_adds_four id (sampleWorld (2 ^ 55))).2.2.1 (by decide)⟩

/-- C5 as stated fails: `2 ^ 55` and `2 ^ 53 - 3` are finite numbers, yet
`loadMoreVlogs()` leaves a `displayCount` of `2 ^ 55` where it is (neither plus
4 nor a strict increase), and takes `2 ^ 53 - 3` to `2 ^ 53`, three more. -/
theorem loadMoreVlogs_not_plus_four :
    (isDouble (sampleWorld (2 ^ 55)).state.displayCount = true ∧
      (exec (loadMoreVlogs id) (sampleWorld (2 ^ 55))).2.state.displayCount
        ≠ (sampleWorld (2 ^ 55)).state.displayCount + 4 ∧
      ¬ ((sampleWorld (2 ^ 55)).state.displayCount
        < (exec (loadMoreVlogs id) (sampleWorld (2 ^ 55))).2.state.displayCount)) ∧
    (isDouble (sampleWorld (2 ^ 53 - 3)).state.displayCount = true ∧
      (exec (loadMoreVlogs id) (sampleWorld (2 ^ 53 - 3))).2.state.displayCount
        ≠ (sampleWorld (2 ^ 53 - 3)).state.displayCount + 4) := by
  have h55 : (exec (loadMoreVlogs id) (sampleWorld (2 ^ 55))).2.state.displayCount
      = jsAdd (2 ^ 55) 4 := rfl
  have h53 : (exec (loadMoreVlogs id) (sampleWorld (2 ^ 53 - 3))).2.state.displayCount
      = jsAdd (2 ^ 53 - 3) 4 := rfl
  have e55 : jsAdd (2 ^ 55) 4 = 2 ^ 55 := by decide
  have e53 : jsAdd (2 ^ 53 - 3) 4 = 2 ^ 53 := by decide
  have d55 : (sampleWorld (2 ^ 55)).state.displayCount = 2 ^ 55 := rfl
  have d53 : (sampleWorld (2 ^ 53 - 3)).state.displayCount = 2 ^ 53 - 3 := rfl
  rw [h55, h53, e55, e53, d55, d53]
  exact ⟨⟨by decide, by decide, by decide⟩, by decide, by decide⟩

/-- C6: `filterVlogs(type)` completes with `currentFilter = type` and
`displayCount = 4`, the page size of the initial state, whatever `displayCount`
was; `vlogs` and `currentVlogId` keep their values. -/
theorem filterVlogs_resets_page (L : String → String) (type : String) (w : World) :
    (exec (filterVlogs L type) w).1 = .ok () ∧
    (exec (filterVlogs L type) w).2.state.currentFilter = type ∧
    (exec (filterVlogs L type) w).2.state.displayCount = 4 ∧
    (exec (filterVlogs L type) w).2.state.displayCount = initialState.displayCount ∧
    (exec (filterVlogs L type) w).2.state.vlogs = w.state.vlogs ∧
    (exec (filterVlogs L type) w).2.state.currentVlogId = w.state.currentVlogId :=
  ⟨rfl, rfl, rfl, rfl, rfl, rfl⟩

/-- C7: a successful `fetchVlogs()` completes with `vlogs` equal to the fetched
list, whatever it held before, and `displayCount`, `currentFilter` and
`currentVlogId` unchanged; the same holds for the refresh that follows a
successful comment submission or upload. -/
theorem fetchVlogs_replaces_vlogs (L : String → String) (vlogs : List Vlog) (w : World)
    (vlogId : String) (json : Except String Unit) (body : Except String (Option String)) :
    (exec (fetchVlogs (FetchOutcome.success vlogs)) w).1 = .ok () ∧
    (exec (fetchVlogs (FetchOutcome.success vlogs)) w).2.state.vlogs = vlogs ∧
    (exec (fetchVlogs (FetchOutcome.success vlogs)) w).2.state.displayCount
      = w.state.displayCount ∧
    (exec (fetchVlogs (FetchOutcome.success vlogs)) w).2.state.currentFilter
      = w.state.currentFilter ∧
    (exec (fetchVlogs (FetchOutcome.success vlogs)) w).2.state.currentVlogId
      = w.state.currentVlogId ∧
    (exec (submitComment L vlogId (.resolved true json) (FetchOutcome.success vlogs)) w).2.state
      = { w.state with vlogs := vlogs, filteredVlogs := vlogs } ∧
    (exec (uploadVlog L (.resolved true body) (FetchOutcome.success vlogs)) w).2.state
      = { w.state with vlogs := vlogs, filteredVlogs := vlogs } :=
  ⟨rfl, rfl, rfl, rfl, rfl, rfl, rfl⟩

/-- C8: after `filterVlogs(type)`, when at most 4 posts of `state.vlogs` pass the
filter the cards are those of all passing posts in their order in `state.vlogs`
and the load-more control is hidden; when more than 4 pass, the cards are those
of the first 4 passing posts and the control is visible.  The grid holds the
concatenated cards, or the placeholder text when no post passes.  A post
passes when `type` is `'all'` or is its `mediaType`, and the card of a post is
the `div.vlog` markup carrying that post: its `_id` as `data-id` and in both
buttons, its media path in a `video` or `img` element, its title, its date and
the number of its comments. -/
theorem filterVlogs_first_page (L : String → String) (type : String) (w : World) :
    (∀ vlog : Vlog, matchesFilter type vlog = true ↔ (type = "all" ∨ vlog.mediaType = type)) ∧
    (∀ vlog : Vlog, createVlogCard L vlog =
        "\n        <div class=\"vlog\" data-id=\"" ++
        vlog._id ++
        "\">\n            <div class=\"vlog-media\">\n                " ++
        (if vlog.mediaType = "video" then
          "<video controls>\n                        <source src=\"" ++
          "https://backend-code-savv.onrender.com" ++ "/" ++ vlog.mediaPath ++
          "\" type=\"video/mp4\">\n                        Your browser does not support the video tag.\n                    </video>"
         else
          "<img src=\"" ++ "https://backend-code-savv.onrender.com" ++ "/" ++ vlog.mediaPath ++
          "\" alt=\"" ++ vlog.title ++ "\">") ++
        "\n            </div>\n            <div class=\"vlog-content\">\n                <h3>" ++
        vlog.title ++
        "</h3>\n                <p class=\"upload-date\">" ++
        L vlog.uploadDate ++
        "</p>\n                <div class=\"vlog-actions\">\n                    <button class=\"view-comments\" onclick=\"showComments(\x27" ++
        vlog._id ++
        "\x27)\">\n                        <i class=\"fas fa-comment\"></i> " ++
        toString vlog.comments.length ++
        " Comments\n                    </button>\n                    <button class=\"add-comment\" onclick=\"openCommentModal(\x27" ++
        vlog._id ++
        "\x27)\">\n                        <i class=\"fas fa-plus\"></i> Add Comment\n                    </button>\n                </div>\n            </div>\n        </div>\n    ") ∧
    ((w.state.vlogs.filter (matchesFilter type)).length ≤ 4 →
      vlogCards L (exec (filterVlogs L type) w).2.state
        = (w.state.vlogs.filter (matchesFilter type)).map (createVlogCard L) ∧
      (exec (filterVlogs L type) w).2.dom.vlogGridHTML
        = (if w.state.vlogs.filter (matchesFilter type) = [] then
             "<p class=\"no-vlogs\">No vlogs found matching your criteria.</p>"
           else String.join ((w.state.vlogs.filter (matchesFilter type)).map (createVlogCard L))) ∧
      (exec (filterVlogs L type) w).2.dom.loadMoreDisplay = "none") ∧
    (4 < (w.state.vlogs.filter (matchesFilter type)).length →
      vlogCards L (exec (filterVlogs L type) w).2.state
        = ((w.state.vlogs.filter (matchesFilter type)).take 4).map (createVlogCard L) ∧
      (exec (filterVlogs L type) w).2.dom.vlogGridHTML
        = String.join (((w.state.vlogs.filter (matchesFilter type)).take 4).map (createVlogCard L)) ∧
      (exec (filterVlogs L type) w).2.dom.loadMoreDisplay = "block") := by
  have hst : (exec (filterVlogs L type) w).2.state =
      { w.state with currentFilter := type, displayCount := 4,
                     filteredVlogs := w.state.vlogs.filter (matchesFilter type) } := by
    rw [filter_matches_eq]; rfl
  have hcards : vlogCards L (exec (filterVlogs L type) w).2.state
      = ((w.state.vlogs.filter (matchesFilter type)).take 4).map (createVlogCard L) := by
    rw [hst]; rfl
  have hgrid : (exec (filterVlogs L type) w).2.dom.vlogGridHTML =
      if String.join (vlogCards L (exec (filterVlogs L type) w).2.state) = "" then
        "<p class=\"no-vlogs\">No vlogs found matching your criteria.</p>"
      else String.join (vlogCards L (exec (filterVlogs L type) w).2.state) := rfl
  have hload : (exec (filterVlogs L type) w).2.dom.loadMoreDisplay =
      if 4 ≥ (exec (filterVlogs L type) w).2.state.filteredVlogs.length then "none"
      else "block" := rfl
  have hlen : (exec (filterVlogs L type) w).2.state.filteredVlogs.length
      = (w.state.vlogs.filter (matchesFilter type)).length := by
    rw [hst]
  rw [hgrid, hload, hcards, hlen]
  refine ⟨fun vlog => by simp [matchesFilter], fun vlog => rfl, ?_, ?_⟩
  · intro h4
    rw [List.take_of_length_le h4]
    refine ⟨rfl, ?_, if_pos h4⟩
    by_cases he : w.state.vlogs.filter (matchesFilter type) = []
    · rw [if_pos he, if_pos ((join_cards_eq_empty_iff L _).mpr he)]
    · rw [if_neg he, if_neg (fun hh => he ((join_cards_eq_empty_iff L _).mp hh))]
  · intro h4
    refine ⟨rfl, ?_, if_neg (by omega)⟩
    rw [if_neg]
    intro hh
    have hl := congrArg List.length ((join_cards_eq_empty_iff L _).mp hh)
    rw [List.length_take, List.length_nil] at hl
    omega

/-- C8, at the sample list (5 videos, 3 images): `filterVlogs('image')` shows the
three image posts in order with load-more hidden, and `filterVlogs('video')`
shows the first four videos with load-more visible. -/
theorem filterVlogs_first_page_witness :
    (vlogCards id (exec (filterVlogs id "image") (sampleWorld 8)).2.state
        = (sampleVlogs.drop 5).map (createVlogCard id) ∧
      (exec (filterVlogs id "image") (sampleWorld 8)).2.dom.vlogGridHTML
        = String.join ((sampleVlogs.drop 5).map (createVlogCard id)) ∧
      (exec (filterVlogs id "image") (sampleWorld 8)).2.dom.loadMoreDisplay = "none") ∧
    (vlogCards id (exec (filterVlogs id "video") (sampleWorld 8)).2.state
        = (sampleVlogs.take 4).map (createVlogCard id) ∧
      (exec (filterVlogs id "video") (sampleWorld 8)).2.dom.vlogGridHTML
        = String.join ((sampleVlogs.take 4).map (createVlogCard id)) ∧
      (exec (filterVlogs id "video") (sampleWorld 8)).2.dom.loadMoreDisplay = "block") :=
  ⟨⟨((filterVlogs_first_page id "image" (sampleWorld 8)).2.2.1 (by decide)).1,
    ((filterVlogs_first_page id "image" (sampleWorld 8)).2.2.1 (by decide)).2.1,
    ((filterVlogs_first_page id "image" (sampleWorld 8)).2.2.1 (by decide)).2.2⟩,
   ⟨((filterVlogs_first_page id "video" (sampleWorld 8)).2.2.2 (by decide)).1,
    ((filterVlogs_first_page id "video" (sampleWorld 8)).2.2.2 (by decide)).2.1,
    ((filterVlogs_first_page id "video" (sampleWorld 8)).2.2.2 (by decide)).2.2⟩⟩

/-! ## Failure paths and the comment dialog -/

/-- C9: when the `POST` of `submitComment` or `uploadVlog` fails (the transport
fails or the response is not a success), the handler completes without
throwing, `state` and the document (modal display included) are as before, and
the only calls made are `preventDefault`, the failed request, `console.error`
and one `showToast` of type `'error'` with a non-empty message: no form reset,
no `closeModal`, no `GET /vlogs`. -/
theorem failed_post_keeps_ui (L : String → String) (vlogId : String) (w : World)
    (post : FetchOutcome Unit) (upload : FetchOutcome (Option String))
    (refresh : FetchOutcome (List Vlog))
    (hpost : post.failed = true) (hupload : upload.failed = true) :
    ((exec (submitComment L vlogId post refresh) w).1 = .ok () ∧
      (exec (submitComment L vlogId post refresh) w).2.state = w.state ∧
      (exec (submitComment L vlogId post refresh) w).2.dom = w.dom ∧
      ∃ e, (exec (submitComment L vlogId post refresh) w).2.log = w.log ++
        [Effect.preventDefault,
         Effect.fetch "POST" (API_BASE_URL ++ "/vlogs/" ++ vlogId ++ "/comments"),
         Effect.consoleError "Error submitting comment:" e,
         Effect.showToast "Failed to add comment" "error"]) ∧
    ((exec (uploadVlog L upload refresh) w).1 = .ok () ∧
      (exec (uploadVlog L upload refresh) w).2.state = w.state ∧
      (exec (uploadVlog L upload refresh) w).2.dom = w.dom ∧
      ∃ e msg, msg ≠ "" ∧ (exec (uploadVlog L upload refresh) w).2.log = w.log ++
        [Effect.preventDefault,
         Effect.fetch "POST" (API_BASE_URL ++ "/vlogs"),
         Effect.consoleError "Error uploading vlog:" e,
         Effect.showToast msg "error"]) := by
  have hmsg : ∀ e : String, (if e = "" then "Failed to upload vlog" else e) ≠ "" := by
    intro e
    by_cases he : e = ""
    · rw [if_pos he]; decide
    · rw [if_neg he]; exact he
  constructor
  · rcases post with m | ⟨ok, j⟩
    · refine ⟨rfl, rfl, rfl, m, ?_⟩
      show w.log ++ [_] ++ [_] ++ [_] ++ [_] = _
      simp
    · cases ok
      · refine ⟨rfl, rfl, rfl, "Failed to submit comment", ?_⟩
        show w.log ++ [_] ++ [_] ++ [_] ++ [_] = _
        simp
      · simp [FetchOutcome.failed] at hpost
  · rcases upload with m | ⟨ok, m | b⟩
    · refine ⟨rfl, rfl, rfl, m, _, hmsg m, ?_⟩
      show w.log ++ [_] ++ [_] ++ [_] ++ [_] = _
      simp
    · cases ok
      · refine ⟨rfl, rfl, rfl, m, _, hmsg m, ?_⟩
        show w.log ++ [_] ++ [_] ++ [_] ++ [_] = _
        simp
      · simp [FetchOutcome.failed] at hupload
    · cases ok
      · cases b with
        | none =>
          refine ⟨rfl, rfl, rfl, "Upload failed", _, hmsg "Upload failed", ?_⟩
          show w.log ++ [_] ++ [_] ++ [_] ++ [_] = _
          simp
        | some s =>
          refine ⟨rfl, rfl, rfl, (if s = "" then "Upload failed" else s), _,
            hmsg (if s = "" then "Upload failed" else s), ?_⟩
          show w.log ++ [_] ++ [_] ++ [_] ++ [_] = _
          simp
      · simp [FetchOutcome.failed] at hupload

/-- C9, at a rejected password: the comment `POST` fails in transport and the
upload is answered with a non-success response whose body carries an error
text; both handlers return normally and leave `state` and the document alone. -/
theorem failed_post_keeps_ui_witness :
    ((exec (submitComment id "v1" (.rejected "Failed to fetch") (.rejected "x"))
        (sampleWorld 8)).1 = .ok () ∧
      (exec (submitComment id "v1" (.rejected "Failed to fetch") (.rejected "x"))
        (sampleWorld 8)).2.state = (sampleWorld 8).state) ∧
    ((exec (uploadVlog id (.resolved false (.ok (some "Invalid password"))) (.rejected "x"))
        (sampleWorld 8)).1 = .ok () ∧
      (exec (uploadVlog id (.resolved false (.ok (some "Invalid password"))) (.rejected "x"))
        (sampleWorld 8)).2.dom = (sampleWorld 8).dom) :=
  ⟨⟨(failed_post_keeps_ui id "v1" (sampleWorld 8) (.rejected "Failed to fetch")
        (.resolved false (.ok (some "Invalid password"))) (.rejected "x") rfl rfl).1.1,
    (failed_post_keeps_ui id "v1" (sampleWorld 8) (.rejected "Failed to fetch")
        (.resolved false (.ok (some "Invalid password"))) (.rejected "x") rfl rfl).1.2.1⟩,
   ⟨(failed_post_keeps_ui id "v1" (sampleWorld 8) (.rejected "Failed to fetch")
        (.resolved false (.ok (some "Invalid password"))) (.rejected "x") rfl rfl).2.1,
    (failed_post_keeps_ui id "v1" (sampleWorld 8) (.rejected "Failed to fetch")
        (.resolved false (.ok (some "Invalid password"))) (.rejected "x") rfl rfl).2.2.2.1⟩⟩

/-- C10: for a successfully fetched post, `showComments` completes.  With no
comments the dialog body is the heading with the title, then the placeholder
text `No comments yet. Be the first to comment!` and no entry, then the close
button; otherwise in place of the placeholder stand the entries, one `div.comment`
per comment in the order of `post.comments`, each with that comment's name in
`<strong>`, its text in `<p>` and its date in `<small>`.  The calls made are the
`GET`, the write of that body, and then `openModal('comment')`, in this order. -/
theorem showComments_renders (L : String → String) (vlogId : String) (vlog : Vlog) (w : World) :
    (exec (showComments L vlogId (FetchOutcome.success vlog)) w).1 = .ok () ∧
    (vlog.comments = [] →
      (exec (showComments L vlogId (FetchOutcome.success vlog)) w).2.dom.commentModalContent
        = "\n            <h2>Comments for \"" ++ vlog.title ++
          "\"</h2>\n            <div class=\"comments-container\">" ++
          "<p>No comments yet. Be the first to comment!</p>" ++
          "</div>\n            <button onclick=\"closeModal(\x27comment\x27)\">Close</button>\n        ") ∧
    (vlog.comments ≠ [] →
      (exec (showComments L vlogId (FetchOutcome.success vlog)) w).2.dom.commentModalContent
        = "\n            <h2>Comments for \"" ++ vlog.title ++
          "\"</h2>\n            <div class=\"comments-container\">" ++
          String.join (vlog.comments.map (fun comment =>
            "\n                <div class=\"comment\">\n                    <strong>" ++
            comment.name ++
            "</strong>\n                    <p>" ++
            comment.text ++
            "</p>\n                    <small>" ++
            L comment.date ++
            "</small>\n                </div>\n            ")) ++
          "</div>\n            <button onclick=\"closeModal(\x27comment\x27)\">Close</button>\n        ") ∧
    (exec (showComments L vlogId (FetchOutcome.success vlog)) w).2.log = w.log ++
      [Effect.fetch "GET" ("https://backend-code-savv.onrender.com" ++ "/vlogs/" ++ vlogId),
       Effect.setCommentModalContent
         (exec (showComments L vlogId (FetchOutcome.success vlog)) w).2.dom.commentModalContent,
       Effect.openModal ModalType.comment] ∧
    (exec (showComments L vlogId (FetchOutcome.success vlog)) w).2.dom.commentModalDisplay
      = "block" ∧
    (exec (showComments L vlogId (FetchOutcome.success vlog)) w).2.state = w.state := by
  have hc : (exec (showComments L vlogId (FetchOutcome.success vlog)) w).2.dom.commentModalContent
      = commentsModalHtml vlog.title
          (if vlog.comments.length > 0 then String.join (vlog.comments.map (commentEntry L))
           else noCommentsHtml) := rfl
  refine ⟨rfl, ?_, ?_, ?_, rfl, rfl⟩
  · intro h
    rw [hc, h]
    rfl
  · intro h
    rw [hc, if_pos (List.length_pos.mpr h)]
    rfl
  · show w.log ++ [_] ++ [_] ++ [_] = _
    rw [List.append_assoc, List.append_assoc]
    rfl

/-- C10, at a post without comments and at a post with two: the first dialog
body holds the placeholder, the second the two entries in array order. -/
theorem showComments_renders_witness :
    (exec (showComments id "v1" (FetchOutcome.success
        { _id := "v1", title := "a", mediaType := "video", mediaPath := "u/1.mp4",
          uploadDate := "d1", comments := [] })) (sampleWorld 4)).2.dom.commentModalContent
      = "\n            <h2>Comments for \"" ++ "a" ++
        "\"</h2>\n            <div class=\"comments-container\">" ++
        "<p>No comments yet. Be the first to comment!</p>" ++
        "</div>\n            <button onclick=\"closeModal(\x27comment\x27)\">Close</button>\n        " ∧
    (exec (showComments id "i1" (FetchOutcome.success
        { _id := "i1", title := "f", mediaType := "image", mediaPath := "u/1.png",
          uploadDate := "d6",
          comments := [{ name := "Asha", text := "first", date := "d7" },
                       { name := "Ravi", text := "second", date := "d8" }] }))
        (sampleWorld 4)).2.dom.commentModalContent
      = "\n            <h2>Comments for \"" ++ "f" ++
        "\"</h2>\n            <div class=\"comments-container\">" ++
        String.join
          [ "\n                <div class=\"comment\">\n                    <strong>" ++ "Asha" ++
            "</strong>\n                    <p>" ++ "first" ++
            "</p>\n                    <small>" ++ "d7" ++
            "</small>\n                </div>\n            ",
            "\n                <div class=\"comment\">\n                    <strong>" ++ "Ravi" ++
            "</strong>\n                    <p>" ++ "second" ++
            "</p>\n                    <small>" ++ "d8" ++
            "</small>\n                </div>\n            " ] ++
        "</div>\n            <button onclick=\"closeModal(\x27comment\x27)\">Close</button>\n        " :=
  ⟨(showComments_renders id "v1"
      { _id := "v1", title := "a", mediaType := "video", mediaPath := "u/1.mp4",
        uploadDate := "d1", comments := [] } (sampleWorld 4)).2.1 rfl,
   (showComments_renders id "i1"
      { _id := "i1", title := "f", mediaType := "image", mediaPath := "u/1.png",
        uploadDate := "d6",
        comments := [{ name := "Asha", text := "first", date := "d7" },
                     { name := "Ravi", text := "second", date := "d8" }] }
      (sampleWorld 4)).2.2.1 (by simp)⟩

end PuriVlogs
